import Mathlib

/-!
# ClientThread (mainwindow.cpp): secure session component

A shallow embedding of `ClientThread` from `src/mainwindow.cpp`.

* The member fields of the class are a record, `ClientThread`.
* Every call into the operating system or the TLS library, and every Qt
  signal emission, is appended to a trace of `Event`s in program order.
* What the outside world answers (file loads, `socket`, `connect`,
  `SSL_connect`, `SSL_read`) is an explicit argument.
* The three execution contexts of a connected session (the thread running
  `run()`, the reader thread, the caller of `disconnect()`) are a step
  function driven by a schedule. Threads interleave between statements, every
  access to a shared field is atomic, and a block that runs under the mutex
  is a single step.
* A store outside the receive buffer is undefined behaviour: the pass that
  performs it records the store and ends as `undefined`, and nothing the
  reader would do afterwards is modelled.
-/

namespace VpnQt

/-! ## Text -/

namespace QString

/-- Number of UTF-16 code units a character occupies in a `QString`. -/
def utf16Units (c : Char) : Nat :=
  if c.toNat < 0x10000 then 1 else 2

/-- The value of `QString::length()`: the count of UTF-16 code units. -/
def length (s : String) : Nat :=
  (s.toList.map utf16Units).sum

/-- UTF-8 encoding of one character, as byte values. -/
def utf8Encode (c : Char) : List Nat :=
  let n := c.toNat
  if n < 0x80 then [n]
  else if n < 0x800 then [0xC0 + n / 64, 0x80 + n % 64]
  else if n < 0x10000 then [0xE0 + n / 4096, 0x80 + (n / 64) % 64, 0x80 + n % 64]
  else [0xF0 + n / 262144, 0x80 + (n / 4096) % 64, 0x80 + (n / 64) % 64, 0x80 + n % 64]

/-- The bytes of `QString::toUtf8()`. -/
def toUtf8 (s : String) : List Nat :=
  (s.toList.map utf8Encode).flatten

/-- The value of `QString::isEmpty()`. -/
def isEmpty (s : String) : Bool :=
  s.toList.isEmpty

end QString

/-! ## Signals and effects -/

/-- The enum `ClientThread::ConnectionErrorType` (mainwindow.h). -/
inductive ConnectionErrorType where
  | SocketCreationFailed
  | ConnectionFailed
  | SSLConnectionFailed
  | UnknownError
  deriving DecidableEq, Repr

/-- The Qt signals of `ClientThread` (mainwindow.h). The payload of
`messageReceived` is the byte content of the C string handed to `QString`. -/
inductive Signal where
  | messageReceived (message : List Nat)
  | disconnected
  | messageSent (message : String)
  | serverGoneDown
  | connectionFailed (errorType : ConnectionErrorType) (errorMessage : String)
  | connectionSuccessful
  deriving DecidableEq, Repr

/-- One externally visible effect of the component. -/
inductive Event where
  | initOpenssl
  | cleanupOpenssl
  | ctxFree (ctx : Nat)
  | close (fd : Int)
  | sslShutdown (ssl : Nat)
  | sslFree (ssl : Nat)
  | sslWrite (buf : List Nat) (num : Nat)
  | sslRead (num : Nat)
  | bufferStore (index : Int) (value : Nat)
  | wakeAll
  | emit (sig : Signal)
  deriving DecidableEq, Repr

/-- The member fields of `ClientThread` (mainwindow.h); a null pointer is
`none`. -/
structure ClientThread where
  ctx : Option Nat
  ssl : Option Nat
  sockfd : Int
  running : Bool
  disconnectRequested : Bool
  messageToSend : String
  deriving DecidableEq, Repr

/-- The constructor `ClientThread::ClientThread`. -/
def ClientThread.new : ClientThread :=
  { ctx := none, ssl := none, sockfd := -1, running := false,
    disconnectRequested := false, messageToSend := "" }

/-! ## Connection phase of `run()` -/

/-- What the environment answers during one connection attempt. -/
structure Env where
  /-- result of `SSL_CTX_new`; `none` is a null pointer -/
  ctxNew : Option Nat
  /-- `SSL_CTX_use_certificate_file` succeeded -/
  certOk : Bool
  /-- `SSL_CTX_use_PrivateKey_file` succeeded -/
  keyOk : Bool
  /-- `SSL_CTX_load_verify_locations` succeeded -/
  caOk : Bool
  /-- return value of `socket` -/
  socketRet : Int
  /-- return value of `::connect` -/
  connectRet : Int
  /-- the object returned by `SSL_new` -/
  sslNew : Nat
  /-- return value of `SSL_connect` -/
  sslConnectRet : Int
  deriving DecidableEq, Repr

/-- `ClientThread::configure_context`: the events it emits, and the message of
the `std::runtime_error` it rethrows, if any. -/
def configure_context (env : Env) : List Event × Option String :=
  let thrown : Option String :=
    if !env.certOk then some "Failed to load client certificate"
    else if !env.keyOk then some "Failed to load private key"
    else if !env.caOk then some "Failed to load CA certificate"
    else none
  match thrown with
  | some what =>
      ([Event.emit (Signal.connectionFailed ConnectionErrorType.SSLConnectionFailed what)],
       some what)
  | none => ([], none)

/-- The guarded release of the SSL object (`if (ssl) ...`). -/
def releaseSsl (s : ClientThread) : ClientThread × List Event :=
  match s.ssl with
  | some h => ({ s with ssl := none }, [Event.sslShutdown h, Event.sslFree h])
  | none => (s, [])

/-- The guarded close of the socket (`if (sockfd != -1) ...`). -/
def releaseSock (s : ClientThread) : ClientThread × List Event :=
  if s.sockfd ≠ -1 then ({ s with sockfd := -1 }, [Event.close s.sockfd])
  else (s, [])

/-- The guarded release of the TLS context (`if (ctx) ...`). -/
def releaseCtx (s : ClientThread) : ClientThread × List Event :=
  match s.ctx with
  | some c => ({ s with ctx := none }, [Event.ctxFree c])
  | none => (s, [])

/-- The release sequence that ends both the try block and the catch block of
`run()`: SSL object, socket, context, `cleanup_openssl()`. -/
def releaseAll (s : ClientThread) : ClientThread × List Event :=
  let r1 := releaseSsl s
  let r2 := releaseSock r1.1
  let r3 := releaseCtx r2.1
  (r3.1, r1.2 ++ r2.2 ++ r3.2 ++ [Event.cleanupOpenssl])

/-- How the connection phase of `run()` ends. -/
inductive Outcome where
  /-- `run()` returned: the attempt failed -/
  | returned
  /-- `create_context` called `exit(EXIT_FAILURE)` -/
  | exited
  /-- `SSL_connect` succeeded; control is at `emit connectionSuccessful()` -/
  | connected
  deriving DecidableEq, Repr

/-- The result of the connection phase. -/
structure Attempt where
  outcome : Outcome
  state : ClientThread
  events : List Event
  deriving DecidableEq, Repr

/-- The catch block of `run()`. -/
def run_catch (what : String) (s : ClientThread) (ev : List Event) : Attempt :=
  let r := releaseAll s
  { outcome := Outcome.returned, state := r.1,
    events := ev ++ [Event.emit (Signal.connectionFailed ConnectionErrorType.UnknownError what)]
      ++ r.2 }

/-- `ClientThread::run()` from its first statement up to the result of
`SSL_connect`, the catch block included. -/
def run_connect (env : Env) (s : ClientThread) : Attempt :=
  let ev0 := [Event.initOpenssl]
  match env.ctxNew with
  | none => { outcome := Outcome.exited, state := s, events := ev0 }
  | some c =>
    let s1 := { s with ctx := some c }
    match configure_context env with
    | (evc, some what) => run_catch what s1 (ev0 ++ evc)
    | (evc, none) =>
      let ev1 := ev0 ++ evc
      let s2 := { s1 with sockfd := env.socketRet }
      if s2.sockfd < 0 then
        { outcome := Outcome.returned, state := s2,
          events := ev1 ++ [Event.cleanupOpenssl,
            Event.emit (Signal.connectionFailed ConnectionErrorType.SocketCreationFailed
              "Unable to create socket")] }
      else if env.connectRet < 0 then
        { outcome := Outcome.returned, state := s2,
          events := ev1 ++ [Event.close s2.sockfd, Event.ctxFree c, Event.cleanupOpenssl,
            Event.emit (Signal.connectionFailed ConnectionErrorType.ConnectionFailed
              "Socket Creation Failed")] }
      else
        let s3 := { s2 with ssl := some env.sslNew }
        if env.sslConnectRet ≤ 0 then
          { outcome := Outcome.returned, state := s3,
            events := ev1 ++ [Event.emit
              (Signal.connectionFailed ConnectionErrorType.SSLConnectionFailed
                "SSL connection failed")] }
        else
          { outcome := Outcome.connected, state := s3, events := ev1 }

/-! ## `disconnect()` and `sendMessage()` -/

/-- The block of `disconnect()` that runs under the mutex. -/
def disconnect_locked (s : ClientThread) : ClientThread × List Event :=
  if s.running then ({ s with disconnectRequested := true }, [Event.wakeAll])
  else (s, [])

/-- `ClientThread::disconnect()`, run without interruption. -/
def disconnect (s : ClientThread) : ClientThread × List Event :=
  let r1 := disconnect_locked s
  let r2 := releaseSock r1.1
  (r2.1, r1.2 ++ r2.2 ++ [Event.cleanupOpenssl, Event.emit Signal.disconnected])

/-- `ClientThread::sendMessage()`. -/
def sendMessage (message : String) (s : ClientThread) : ClientThread × List Event :=
  ({ s with messageToSend := message }, [Event.wakeAll])

/-! ## Send loop -/

/-- The body of the send loop after `condition.wait` returns. The flag is
`true` when the body leaves the loop through `break`. -/
def send_loop_body (s : ClientThread) : ClientThread × List Event × Bool :=
  if s.disconnectRequested then ({ s with running := false }, [], true)
  else if !QString.isEmpty s.messageToSend then
    ({ s with messageToSend := "" },
     [Event.sslWrite (QString.toUtf8 s.messageToSend) (QString.length s.messageToSend),
      Event.emit (Signal.messageSent s.messageToSend)],
     false)
  else (s, [], false)

/-! ## Receive loop -/

/-- The size of `buffer` in `read_from_server`. -/
def bufferSize : Nat := 256

/-- What one `SSL_read` call returns: the return value and the bytes placed
at the start of the buffer. -/
structure ReadResult where
  bytes : Int
  data : List Nat
  deriving DecidableEq, Repr

/-- The content of the C string that starts at `buffer` once `bytes` bytes
have been read and the terminator stored at `buffer[bytes]`. It is used only
for `bytes < bufferSize`, where the terminator lies inside the buffer. -/
def cString (r : ReadResult) : List Nat :=
  (r.data.take r.bytes.toNat).takeWhile (fun b => b ≠ 0)

/-- How one pass through the body of the loop of `read_from_server` ends. -/
inductive ReadOutcome where
  /-- the pass reached the end of the body; the loop test comes next -/
  | again
  /-- the pass ended in `break` -/
  | leave
  /-- the pass stored the terminator outside `buffer`: from here on the
  behaviour of the program is undefined and nothing further is modelled -/
  | undefined
  deriving DecidableEq, Repr

/-- One pass through the body of the loop of `read_from_server`, given what
`SSL_read` returned. The store `buffer[bytes] = 0` is inside the buffer only
for `bytes < bufferSize`; otherwise the pass records the store and ends as
`undefined`, with no notification. -/
def read_iteration (s : ClientThread) (r : ReadResult) :
    ClientThread × List Event × ReadOutcome :=
  if r.bytes ≤ 0 then
    ({ s with running := false },
     [Event.sslRead bufferSize, Event.emit Signal.serverGoneDown,
      Event.emit Signal.disconnected],
     ReadOutcome.leave)
  else if (bufferSize : Int) ≤ r.bytes then
    (s,
     [Event.sslRead bufferSize, Event.bufferStore r.bytes 0],
     ReadOutcome.undefined)
  else
    (s,
     [Event.sslRead bufferSize, Event.bufferStore r.bytes 0,
      Event.emit (Signal.messageReceived (cString r))],
     ReadOutcome.again)

/-- How a run of `read_from_server` against a list of read results ends. -/
inductive ReaderStatus where
  /-- `read_from_server` has returned -/
  | returned
  /-- the loop is blocked in `SSL_read` with nothing to return -/
  | blocked
  /-- the loop has stored outside `buffer`; what follows is undefined -/
  | undefined
  deriving DecidableEq, Repr

/-- Result of running `read_from_server` against a list of read results. -/
structure ReaderResult where
  state : ClientThread
  events : List Event
  /-- the read results that were not consumed -/
  unread : List ReadResult
  status : ReaderStatus
  deriving DecidableEq, Repr

/-- `ClientThread::read_from_server()` with no other thread touching the
fields; `reads` lists what the successive `SSL_read` calls return. -/
def read_from_server (s : ClientThread) : List ReadResult → ReaderResult
  | [] =>
    { state := s, events := [], unread := [],
      status := if s.running then ReaderStatus.blocked else ReaderStatus.returned }
  | r :: rs =>
    if s.running then
      match read_iteration s r with
      | (s1, ev, ReadOutcome.leave) =>
        { state := s1, events := ev, unread := rs, status := ReaderStatus.returned }
      | (s1, ev, ReadOutcome.undefined) =>
        { state := s1, events := ev, unread := rs, status := ReaderStatus.undefined }
      | (s1, ev, ReadOutcome.again) =>
        let rest := read_from_server s1 rs
        { rest with events := ev ++ rest.events }
    else
      { state := s, events := [], unread := r :: rs, status := ReaderStatus.returned }

/-! ## The connected session as a transition system -/

/-- Control points of the thread executing `run()`, from the statement after
the successful `SSL_connect` to the end of the try block. -/
inductive SendPc where
  /-- at `emit connectionSuccessful()` -/
  | connected
  /-- at `running = true; disconnectRequested = false; log_certificate(ssl)` -/
  | setRunning
  /-- at `readerThread = std::thread(...)` -/
  | startReader
  /-- at the test of `while (running)` -/
  | loopHead
  /-- blocked in `condition.wait(&mutex)` -/
  | waiting
  /-- woken, about to leave `condition.wait` and run the loop body -/
  | woken
  /-- at `readerThread.join()` -/
  | join
  /-- at `if (ssl)` -/
  | freeSsl
  /-- at `if (sockfd != -1)` -/
  | sockCheck
  /-- at `close(sockfd)` -/
  | sockClose
  /-- at `sockfd = -1` -/
  | sockReset
  /-- at `if (ctx)`, followed by `cleanup_openssl()` -/
  | freeCtx
  /-- at `emit disconnected()` -/
  | emitDisconnected
  /-- `run()` has returned -/
  | done
  deriving DecidableEq, Repr

/-- Control points of the reader thread in `read_from_server`. -/
inductive ReaderPc where
  | notStarted
  /-- at the test of `while (running)` -/
  | loopHead
  /-- inside `SSL_read` -/
  | reading
  /-- `read_from_server` has returned -/
  | done
  /-- the reader has stored outside `buffer`; what it does next is undefined
  and it takes no further step here -/
  | undefined
  deriving DecidableEq, Repr

/-- Control points of the thread that calls `disconnect()`. -/
inductive DiscPc where
  /-- not inside `disconnect()` -/
  | idle
  /-- at `if (sockfd != -1)` -/
  | sockCheck
  /-- at `close(sockfd)` -/
  | sockClose
  /-- at `sockfd = -1` -/
  | sockReset
  /-- at `cleanup_openssl(); emit disconnected()` -/
  | finish
  deriving DecidableEq, Repr

/-- The state of a connected session: the shared fields, one control point
per thread, the number of `disconnect()` calls entered, and the trace. -/
structure Sys where
  fields : ClientThread
  sendPc : SendPc
  readerPc : ReaderPc
  discPc : DiscPc
  calls : Nat
  trace : List Event
  deriving DecidableEq, Repr

/-- The session at the moment `SSL_connect` has succeeded. -/
def Sys.start (f : ClientThread) : Sys :=
  { fields := f, sendPc := SendPc.connected, readerPc := ReaderPc.notStarted,
    discPc := DiscPc.idle, calls := 0, trace := [] }

/-- The effect of `condition.wakeAll()`: a thread blocked in
`condition.wait` becomes runnable. -/
def wake (s : Sys) : Sys :=
  match s.sendPc with
  | SendPc.waiting => { s with sendPc := SendPc.woken }
  | _ => s

/-- Apply `wake` when the events just performed contain a `wakeAll`. -/
def wakeIf (ev : List Event) (s : Sys) : Sys :=
  if Event.wakeAll ∈ ev then wake s else s

/-- One step of the thread executing `run()`. -/
def stepRun (s : Sys) : Sys :=
  match s.sendPc with
  | SendPc.connected =>
      { s with sendPc := SendPc.setRunning,
               trace := s.trace ++ [Event.emit Signal.connectionSuccessful] }
  | SendPc.setRunning =>
      { s with fields := { s.fields with running := true, disconnectRequested := false },
               sendPc := SendPc.startReader }
  | SendPc.startReader =>
      { s with readerPc := ReaderPc.loopHead, sendPc := SendPc.loopHead }
  | SendPc.loopHead =>
      if s.fields.running then { s with sendPc := SendPc.waiting }
      else { s with sendPc := SendPc.join }
  | SendPc.waiting => s
  | SendPc.woken =>
      let r := send_loop_body s.fields
      { s with fields := r.1, trace := s.trace ++ r.2.1,
               sendPc := if r.2.2 then SendPc.join else SendPc.loopHead }
  | SendPc.join =>
      if s.readerPc = ReaderPc.done then { s with sendPc := SendPc.freeSsl } else s
  | SendPc.freeSsl =>
      let r := releaseSsl s.fields
      { s with fields := r.1, trace := s.trace ++ r.2, sendPc := SendPc.sockCheck }
  | SendPc.sockCheck =>
      if s.fields.sockfd ≠ -1 then { s with sendPc := SendPc.sockClose }
      else { s with sendPc := SendPc.freeCtx }
  | SendPc.sockClose =>
      { s with trace := s.trace ++ [Event.close s.fields.sockfd], sendPc := SendPc.sockReset }
  | SendPc.sockReset =>
      { s with fields := { s.fields with sockfd := -1 }, sendPc := SendPc.freeCtx }
  | SendPc.freeCtx =>
      let r := releaseCtx s.fields
      { s with fields := r.1, trace := s.trace ++ r.2 ++ [Event.cleanupOpenssl],
               sendPc := SendPc.emitDisconnected }
  | SendPc.emitDisconnected =>
      { s with trace := s.trace ++ [Event.emit Signal.disconnected], sendPc := SendPc.done }
  | SendPc.done => s

/-- One step of the reader thread; `r` is what `SSL_read` returns when the
step is the return of that call. -/
def stepReader (r : ReadResult) (s : Sys) : Sys :=
  match s.readerPc with
  | ReaderPc.notStarted => s
  | ReaderPc.loopHead =>
      if s.fields.running then { s with readerPc := ReaderPc.reading }
      else { s with readerPc := ReaderPc.done }
  | ReaderPc.reading =>
      let it := read_iteration s.fields r
      { s with fields := it.1, trace := s.trace ++ it.2.1,
               readerPc := match it.2.2 with
                 | ReadOutcome.again => ReaderPc.loopHead
                 | ReadOutcome.leave => ReaderPc.done
                 | ReadOutcome.undefined => ReaderPc.undefined }
  | ReaderPc.done => s
  | ReaderPc.undefined => s

/-- One step of the thread calling `disconnect()`; from `idle` the step
enters a new call and runs the block under the mutex. -/
def stepDisconnect (s : Sys) : Sys :=
  match s.discPc with
  | DiscPc.idle =>
      let r := disconnect_locked s.fields
      wakeIf r.2
        { s with fields := r.1, trace := s.trace ++ r.2, discPc := DiscPc.sockCheck,
                 calls := s.calls + 1 }
  | DiscPc.sockCheck =>
      if s.fields.sockfd ≠ -1 then { s with discPc := DiscPc.sockClose }
      else { s with discPc := DiscPc.finish }
  | DiscPc.sockClose =>
      { s with trace := s.trace ++ [Event.close s.fields.sockfd], discPc := DiscPc.sockReset }
  | DiscPc.sockReset =>
      { s with fields := { s.fields with sockfd := -1 }, discPc := DiscPc.finish }
  | DiscPc.finish =>
      { s with trace := s.trace ++ [Event.cleanupOpenssl, Event.emit Signal.disconnected],
               discPc := DiscPc.idle }

/-- A complete call of `sendMessage`, which runs under the mutex. -/
def stepSendMessage (message : String) (s : Sys) : Sys :=
  let r := sendMessage message s.fields
  wakeIf r.2 { s with fields := r.1, trace := s.trace ++ r.2 }

/-- What the scheduler and the environment choose next. -/
inductive Choice where
  /-- the thread in `run()` takes its next step -/
  | run
  /-- the reader thread takes its next step -/
  | reader (r : ReadResult)
  /-- the caller of `disconnect()` takes its next step -/
  | disconnect
  /-- some caller executes `sendMessage(message)` -/
  | sendMessage (message : String)
  deriving DecidableEq, Repr

/-- One step of the session. A thread that is blocked does not move. -/
def step (c : Choice) (s : Sys) : Sys :=
  match c with
  | Choice.run => stepRun s
  | Choice.reader r => stepReader r s
  | Choice.disconnect => stepDisconnect s
  | Choice.sendMessage m => stepSendMessage m s

/-- Run a schedule from a state. -/
def exec (sched : List Choice) (s : Sys) : Sys :=
  sched.foldl (fun acc c => step c acc) s

/-! ## Observations on traces -/

/-- The number of `disconnected` notifications in a trace. -/
def disconnectedCount (tr : List Event) : Nat :=
  tr.count (Event.emit Signal.disconnected)

/-- Whether an event releases the channel, the socket or the TLS context. -/
def Event.isRelease : Event → Bool
  | Event.sslFree _ => true
  | Event.close _ => true
  | Event.ctxFree _ => true
  | _ => false

/-- Whether an event closes a socket. -/
def Event.isClose : Event → Bool
  | Event.close _ => true
  | _ => false

/-- The releases of a trace, in order. -/
def releases (tr : List Event) : List Event :=
  tr.filter Event.isRelease

/-- The releases of a trace other than socket closes, in order. -/
def ownerReleases (tr : List Event) : List Event :=
  (releases tr).filter (fun e => !e.isClose)

/-- The socket closes in a trace, in order. -/
def closes (tr : List Event) : List Event :=
  tr.filter Event.isClose

/-- The signals emitted in a trace, in order. -/
def signals (tr : List Event) : List Signal :=
  tr.filterMap (fun e => match e with
    | Event.emit sig => some sig
    | _ => none)

/-- The number of `SSL_read` calls in a trace. -/
def readCount (tr : List Event) : Nat :=
  tr.countP (fun e => match e with
    | Event.sslRead _ => true
    | _ => false)

/-- Whether an event is a store outside `buffer`. -/
def Event.storeOutOfBounds : Event → Bool
  | Event.bufferStore index _ => decide (index < 0 ∨ (bufferSize : Int) ≤ index)
  | _ => false

/-- Whether an event is a `connectionFailed` notification of kind
`UnknownError`. -/
def Event.isUnknownError : Event → Bool
  | Event.emit (Signal.connectionFailed ConnectionErrorType.UnknownError _) => true
  | _ => false

/-! ## Concrete inputs -/

/-- An environment in which every call of the connection phase succeeds. -/
def envAllOk : Env :=
  { ctxNew := some 1, certOk := true, keyOk := true, caOk := true, socketRet := 3,
    connectRet := 0, sslNew := 2, sslConnectRet := 1 }

/-- The TLS handshake fails: `SSL_connect` returns 0. -/
def envHandshakeFails : Env := { envAllOk with sslConnectRet := 0 }

/-- The peer is unreachable: `::connect` returns -1. -/
def envConnectFails : Env := { envAllOk with connectRet := -1 }

/-- The client certificate file cannot be loaded. -/
def envCertMissing : Env := { envAllOk with certOk := false }

/-- A session whose handshake has succeeded and whose flags are set. -/
def connectedFields : ClientThread :=
  { ctx := some 1, ssl := some 2, sockfd := 3, running := true,
    disconnectRequested := false, messageToSend := "" }

/-- A read that fills the whole buffer. -/
def fullRead : ReadResult := { bytes := 256, data := List.replicate 256 65 }

/-- The peer has closed the channel: `SSL_read` returns 0. -/
def closedRead : ReadResult := { bytes := 0, data := [] }

/-- The buffer and byte count of every `SSL_write` call in a trace. -/
def writes (tr : List Event) : List (List Nat × Nat) :=
  tr.filterMap (fun e => match e with
    | Event.sslWrite buf num => some (buf, num)
    | _ => none)

/-- The socket cannot be created: `socket` returns -1. -/
def envSocketFails : Env := { envAllOk with socketRet := -1 }

/-- A read that fails: `SSL_read` returns -1. -/
def failedRead : ReadResult := { bytes := -1, data := [] }

/-- A read of the three bytes of "hi!". -/
def hiRead : ReadResult := { bytes := 3, data := [104, 105, 33] }

/-- The session right after a successful handshake on a fresh `ClientThread`. -/
def sessionStart : Sys :=
  Sys.start (run_connect envAllOk ClientThread.new).state

/-- The same session once `run()` is blocked in `condition.wait`. -/
def sessionWaiting : Sys :=
  exec [Choice.run, Choice.run, Choice.run, Choice.run] sessionStart

/-- `run()` reaches the wait, the reader enters `SSL_read`, and one call of
`disconnect()` runs from entry to return. -/
def schedDisconnectPre : List Choice :=
  [Choice.run, Choice.run, Choice.run, Choice.run, Choice.reader closedRead,
   Choice.disconnect, Choice.disconnect, Choice.disconnect, Choice.disconnect,
   Choice.disconnect]

/-- The pending `SSL_read` then fails, and `run()` wakes, joins the reader and
tears the session down. -/
def schedDisconnectPost : List Choice :=
  [Choice.reader failedRead, Choice.run, Choice.run, Choice.run, Choice.run, Choice.run,
   Choice.run]

/-- No `disconnect()` at all: the peer closes the channel, a later
`sendMessage` wakes `run()`, which writes, leaves the loop and tears down. -/
def schedPeerCloses : List Choice :=
  [Choice.run, Choice.run, Choice.run, Choice.run, Choice.reader closedRead,
   Choice.reader closedRead, Choice.sendMessage "x", Choice.run, Choice.run, Choice.run,
   Choice.run, Choice.run, Choice.run, Choice.run, Choice.run, Choice.run]

/-- The bytes each `SSL_write` call of a trace hands to the channel: the
first `num` bytes of its buffer. -/
def bytesWritten (tr : List Event) : List (List Nat) :=
  (writes tr).map (fun w => w.1.take w.2)

/-- Whether a choice is a call of `sendMessage`. -/
def Choice.isSendMessage : Choice → Bool
  | Choice.sendMessage _ => true
  | _ => false

/-- `run()` reaches the wait, the reader enters `SSL_read`, and the peer
closes the channel: the read returns 0. -/
def schedPeerClosed : List Choice :=
  [Choice.run, Choice.run, Choice.run, Choice.run, Choice.reader closedRead,
   Choice.reader closedRead]

/-- After the peer has closed: one call of `disconnect()` from entry to
return, and every thread is offered further steps. -/
def schedAfterPeerClosed : List Choice :=
  [Choice.disconnect, Choice.disconnect, Choice.disconnect, Choice.disconnect,
   Choice.disconnect, Choice.run, Choice.reader closedRead, Choice.run, Choice.run]

/-- One call of `disconnect()` that overlaps the teardown of `run()`: the
caller has tested `sockfd` and pauses before `close`; the peer closes, `run()`
wakes, joins, and closes the socket itself; the caller then resumes. -/
def schedOverlap : List Choice :=
  [Choice.run, Choice.run, Choice.run, Choice.run, Choice.reader closedRead,
   Choice.disconnect, Choice.disconnect,
   Choice.reader closedRead, Choice.run, Choice.run, Choice.run, Choice.run, Choice.run,
   Choice.disconnect,
   Choice.run, Choice.run, Choice.run,
   Choice.disconnect, Choice.disconnect]

/-! ## Invariants of the transition system -/

/-- The peer has closed the channel while `run()` is blocked in the wait: the
reader has cleared `running` and returned. -/
def Stuck (s : Sys) : Prop :=
  s.sendPc = SendPc.waiting ∧ s.fields.running = false ∧ s.readerPc = ReaderPc.done

/-- How far the teardown of `run()` has come: 0 before the SSL object is
released, 1 once it is released and the socket not yet closed by `run()`, 2 once
`run()` is past `close(sockfd)`, 3 once the context is released. -/
def SendPc.phase : SendPc → Nat
  | SendPc.sockCheck => 1
  | SendPc.sockClose => 1
  | SendPc.sockReset => 2
  | SendPc.freeCtx => 2
  | SendPc.emitDisconnected => 3
  | SendPc.done => 3
  | _ => 0

/-- Whether `run()` is between its test of `sockfd` and the reset of the field. -/
def SendPc.closing (p : SendPc) : Prop :=
  p = SendPc.sockClose ∨ p = SendPc.sockReset

/-- Control points of `run()` at which the reader thread does not exist yet. -/
def SendPc.beforeReader (p : SendPc) : Prop :=
  p = SendPc.connected ∨ p = SendPc.setRunning ∨ p = SendPc.startReader

/-- One if `run()` has returned, zero otherwise. -/
def SendPc.doneCount (p : SendPc) : Nat :=
  if p = SendPc.done then 1 else 0

/-- One if the reader thread has returned, zero otherwise. -/
def ReaderPc.doneCount (p : ReaderPc) : Nat :=
  if p = ReaderPc.done then 1 else 0

/-- The number of `disconnect()` calls in progress. -/
def DiscPc.inFlight (p : DiscPc) : Nat :=
  if p = DiscPc.idle then 0 else 1

/-- The accounting of `disconnected` notifications: one per finished
`disconnect()` call, at most one from the reader thread, and one from the end
of `run()`. -/
def CountInv (s : Sys) : Prop :=
  (s.sendPc.beforeReader → s.readerPc = ReaderPc.notStarted) ∧
  s.discPc.inFlight ≤ s.calls ∧
  s.calls ≤ disconnectedCount s.trace + s.discPc.inFlight ∧
  disconnectedCount s.trace + s.discPc.inFlight ≤
    s.calls + s.readerPc.doneCount + s.sendPc.doneCount

/-- What `run()` has released so far, and what the socket field holds, at
each stage of its teardown. -/
def RelInv (h c : Nat) (fd : Int) (s : Sys) : Prop :=
  (s.sendPc.phase = 0 →
    s.fields.ssl = some h ∧ s.fields.ctx = some c ∧ ownerReleases s.trace = []) ∧
  (s.sendPc.phase = 1 ∨ s.sendPc.phase = 2 →
    s.fields.ctx = some c ∧ ownerReleases s.trace = [Event.sslFree h]) ∧
  (s.sendPc.phase = 3 → ownerReleases s.trace = [Event.sslFree h, Event.ctxFree c]) ∧
  (s.calls = 0 → s.discPc = DiscPc.idle ∧
    (s.sendPc.phase = 0 → s.fields.sockfd = fd ∧ releases s.trace = []) ∧
    (s.sendPc.phase = 1 → s.fields.sockfd = fd ∧ releases s.trace = [Event.sslFree h]) ∧
    (s.sendPc.phase = 2 → releases s.trace = [Event.sslFree h, Event.close fd]) ∧
    (s.sendPc.phase = 3 →
      releases s.trace = [Event.sslFree h, Event.close fd, Event.ctxFree c])) ∧
  (s.sendPc.phase = 0 → 1 ≤ s.calls →
    (s.discPc = DiscPc.idle → s.fields.sockfd = -1 ∧ releases s.trace = [Event.close fd]) ∧
    (s.discPc = DiscPc.sockCheck →
      (s.fields.sockfd = fd ∧ releases s.trace = []) ∨
      (s.fields.sockfd = -1 ∧ releases s.trace = [Event.close fd])) ∧
    (s.discPc = DiscPc.sockClose → s.fields.sockfd = fd ∧ releases s.trace = []) ∧
    (s.discPc = DiscPc.sockReset → releases s.trace = [Event.close fd]) ∧
    (s.discPc = DiscPc.finish → s.fields.sockfd = -1 ∧ releases s.trace = [Event.close fd]))

/-- The socket has been closed by a `disconnect()` call that has returned,
and no thread is about to close it again. -/
def Settled (h c : Nat) (fd : Int) (s : Sys) : Prop :=
  s.fields.sockfd = -1 ∧
  (s.discPc = DiscPc.idle ∨ s.discPc = DiscPc.sockCheck ∨ s.discPc = DiscPc.finish) ∧
  ¬ s.sendPc.closing ∧
  (s.sendPc.phase = 0 → releases s.trace = [Event.close fd]) ∧
  (s.sendPc.phase = 1 ∨ s.sendPc.phase = 2 →
    releases s.trace = [Event.close fd, Event.sslFree h]) ∧
  (s.sendPc.phase = 3 →
    releases s.trace = [Event.close fd, Event.sslFree h, Event.ctxFree c])

/-! ## Auxiliary lemmas -/

theorem wake_trace (s : Sys) : (wake s).trace = s.trace := by
  unfold wake; split <;> rfl

theorem wake_calls (s : Sys) : (wake s).calls = s.calls := by
  unfold wake; split <;> rfl

theorem wake_discPc (s : Sys) : (wake s).discPc = s.discPc := by
  unfold wake; split <;> rfl

theorem wake_readerPc (s : Sys) : (wake s).readerPc = s.readerPc := by
  unfold wake; split <;> rfl

theorem wake_fields (s : Sys) : (wake s).fields = s.fields := by
  unfold wake; split <;> rfl

theorem wakeIf_trace (ev : List Event) (s : Sys) : (wakeIf ev s).trace = s.trace := by
  unfold wakeIf; split <;> simp [wake_trace]

theorem wakeIf_calls (ev : List Event) (s : Sys) : (wakeIf ev s).calls = s.calls := by
  unfold wakeIf; split <;> simp [wake_calls]

theorem wakeIf_discPc (ev : List Event) (s : Sys) : (wakeIf ev s).discPc = s.discPc := by
  unfold wakeIf; split <;> simp [wake_discPc]

theorem wakeIf_readerPc (ev : List Event) (s : Sys) : (wakeIf ev s).readerPc = s.readerPc := by
  unfold wakeIf; split <;> simp [wake_readerPc]

theorem wakeIf_fields (ev : List Event) (s : Sys) : (wakeIf ev s).fields = s.fields := by
  unfold wakeIf; split <;> simp [wake_fields]

theorem wake_phase (s : Sys) : (wake s).sendPc.phase = s.sendPc.phase := by
  unfold wake; split <;> simp_all [SendPc.phase]

theorem wakeIf_phase (ev : List Event) (s : Sys) :
    (wakeIf ev s).sendPc.phase = s.sendPc.phase := by
  unfold wakeIf; split <;> simp [wake_phase]

theorem wake_closing (s : Sys) : (wake s).sendPc.closing ↔ s.sendPc.closing := by
  unfold wake; split <;> simp_all [SendPc.closing]

theorem wakeIf_closing (ev : List Event) (s : Sys) :
    (wakeIf ev s).sendPc.closing ↔ s.sendPc.closing := by
  unfold wakeIf; split <;> simp [wake_closing]

theorem releases_append (a b : List Event) : releases (a ++ b) = releases a ++ releases b := by
  simp [releases]

theorem releases_nil : releases [] = [] := rfl

theorem releases_cons (e : Event) (tr : List Event) :
    releases (e :: tr) = if e.isRelease then e :: releases tr else releases tr := by
  simp [releases, List.filter_cons]

theorem ownerReleases_append (a b : List Event) :
    ownerReleases (a ++ b) = ownerReleases a ++ ownerReleases b := by
  simp [ownerReleases, releases]

theorem ownerReleases_nil : ownerReleases [] = [] := rfl

theorem ownerReleases_cons (e : Event) (tr : List Event) :
    ownerReleases (e :: tr) =
      if (e.isRelease && !e.isClose) then e :: ownerReleases tr else ownerReleases tr := by
  simp only [ownerReleases, releases, List.filter_cons]
  cases h1 : e.isRelease <;> cases h2 : e.isClose <;> simp [h1, h2, List.filter_cons]

theorem send_loop_body_frame (f : ClientThread) :
    (send_loop_body f).1.ssl = f.ssl ∧ (send_loop_body f).1.ctx = f.ctx ∧
    (send_loop_body f).1.sockfd = f.sockfd ∧ releases (send_loop_body f).2.1 = [] := by
  unfold send_loop_body
  split
  · simp [releases_nil]
  · split <;> simp [releases_cons, releases_nil, Event.isRelease]

theorem read_iteration_frame (f : ClientThread) (r : ReadResult) :
    (read_iteration f r).1.ssl = f.ssl ∧ (read_iteration f r).1.ctx = f.ctx ∧
    (read_iteration f r).1.sockfd = f.sockfd ∧ releases (read_iteration f r).2.1 = [] := by
  unfold read_iteration
  split
  · simp [releases_cons, releases_nil, Event.isRelease]
  · split <;> simp [releases_cons, releases_nil, Event.isRelease]

theorem read_iteration_count (f : ClientThread) (r : ReadResult) :
    ((read_iteration f r).2.2 = ReadOutcome.leave ∧
      disconnectedCount (read_iteration f r).2.1 = 1) ∨
    ((read_iteration f r).2.2 = ReadOutcome.again ∧
      disconnectedCount (read_iteration f r).2.1 = 0) ∨
    ((read_iteration f r).2.2 = ReadOutcome.undefined ∧
      disconnectedCount (read_iteration f r).2.1 = 0) := by
  unfold read_iteration
  split
  · simp [disconnectedCount]
  · split <;> simp [disconnectedCount]

theorem disconnect_locked_frame (f : ClientThread) :
    (disconnect_locked f).1.ssl = f.ssl ∧ (disconnect_locked f).1.ctx = f.ctx ∧
    (disconnect_locked f).1.sockfd = f.sockfd ∧ releases (disconnect_locked f).2 = [] := by
  unfold disconnect_locked
  split <;> simp [releases_cons, releases_nil, Event.isRelease]

theorem ownerReleases_of_releases_nil (tr : List Event) (h : releases tr = []) :
    ownerReleases tr = [] := by
  simp [ownerReleases, h]

theorem exec_append (p q : List Choice) (s : Sys) : exec (p ++ q) s = exec q (exec p s) := by
  simp [exec, List.foldl_append]

theorem disconnectedCount_append (a b : List Event) :
    disconnectedCount (a ++ b) = disconnectedCount a + disconnectedCount b := by
  simp [disconnectedCount]

theorem disconnectedCount_nil : disconnectedCount [] = 0 := rfl

theorem disconnectedCount_cons (e : Event) (tr : List Event) :
    disconnectedCount (e :: tr) =
      disconnectedCount tr + (if e = Event.emit Signal.disconnected then 1 else 0) := by
  simp only [disconnectedCount, List.count_cons, beq_iff_eq]

theorem count_send_loop_body (f : ClientThread) :
    disconnectedCount (send_loop_body f).2.1 = 0 := by
  unfold send_loop_body
  split
  · rfl
  · split <;> simp [disconnectedCount_cons, disconnectedCount_nil]

theorem count_releaseSsl (f : ClientThread) : disconnectedCount (releaseSsl f).2 = 0 := by
  unfold releaseSsl
  split <;> simp [disconnectedCount_cons, disconnectedCount_nil]

theorem count_releaseCtx (f : ClientThread) : disconnectedCount (releaseCtx f).2 = 0 := by
  unfold releaseCtx
  split <;> simp [disconnectedCount_cons, disconnectedCount_nil]

theorem count_disconnect_locked (f : ClientThread) :
    disconnectedCount (disconnect_locked f).2 = 0 := by
  unfold disconnect_locked
  split <;> simp [disconnectedCount_cons, disconnectedCount_nil]

theorem wake_doneCount (s : Sys) : (wake s).sendPc.doneCount = s.sendPc.doneCount := by
  unfold wake; split <;> simp_all [SendPc.doneCount]

theorem wake_beforeReader (s : Sys) : (wake s).sendPc.beforeReader ↔ s.sendPc.beforeReader := by
  unfold wake; split <;> simp_all [SendPc.beforeReader]

theorem wakeIf_doneCount (ev : List Event) (s : Sys) :
    (wakeIf ev s).sendPc.doneCount = s.sendPc.doneCount := by
  unfold wakeIf; split <;> simp [wake_doneCount]

theorem wakeIf_beforeReader (ev : List Event) (s : Sys) :
    (wakeIf ev s).sendPc.beforeReader ↔ s.sendPc.beforeReader := by
  unfold wakeIf; split <;> simp [wake_beforeReader]

theorem countInv_start (f : ClientThread) : CountInv (Sys.start f) := by
  simp [CountInv, Sys.start, SendPc.beforeReader, SendPc.doneCount, ReaderPc.doneCount,
    DiscPc.inFlight, disconnectedCount_nil]

theorem countInv_stepRun (s : Sys) (h : CountInv s) : CountInv (stepRun s) := by
  obtain ⟨f, sp, rp, dp, calls, tr⟩ := s
  cases sp <;> dsimp only [stepRun] <;> (try split) <;>
    simp [CountInv, SendPc.beforeReader, SendPc.doneCount, disconnectedCount_append,
      disconnectedCount_cons, disconnectedCount_nil, count_send_loop_body, count_releaseSsl,
      count_releaseCtx] at h ⊢ <;>
    (try simp_all [ReaderPc.doneCount]) <;>
    (try omega) <;>
    (obtain ⟨rfl, h1, h2, h3⟩ := h; simp at h3; omega)

theorem countInv_stepReader (r : ReadResult) (s : Sys) (h : CountInv s) :
    CountInv (stepReader r s) := by
  obtain ⟨f, sp, rp, dp, calls, tr⟩ := s
  cases rp with
  | notStarted => exact h
  | done => exact h
  | undefined => exact h
  | loopHead =>
    dsimp only [stepReader]
    split <;>
      simp [CountInv, ReaderPc.doneCount] at h ⊢ <;>
      refine ⟨fun hb => ?_, by omega⟩ <;> simp_all
  | reading =>
    dsimp only [stepReader]
    rcases read_iteration_count f r with ⟨ho, hc⟩ | ⟨ho, hc⟩ | ⟨ho, hc⟩ <;>
      simp [CountInv, ReaderPc.doneCount, disconnectedCount_append, ho, hc] at h ⊢ <;>
      refine ⟨fun hb => ?_, by omega⟩ <;> simp_all

theorem countInv_stepDisconnect (s : Sys) (h : CountInv s) : CountInv (stepDisconnect s) := by
  obtain ⟨f, sp, rp, dp, calls, tr⟩ := s
  cases dp <;> dsimp only [stepDisconnect] <;> (try split) <;>
    simp [CountInv, DiscPc.inFlight, disconnectedCount_append, wakeIf_trace, wakeIf_calls,
      wakeIf_discPc, wakeIf_readerPc, wakeIf_doneCount, wakeIf_beforeReader,
      disconnectedCount_cons, disconnectedCount_nil, count_disconnect_locked] at h ⊢ <;>
    (refine ⟨h.1, ?_⟩) <;> omega

theorem countInv_stepSendMessage (m : String) (s : Sys) (h : CountInv s) :
    CountInv (stepSendMessage m s) := by
  obtain ⟨f, sp, rp, dp, calls, tr⟩ := s
  simp [CountInv, stepSendMessage, sendMessage, disconnectedCount_append, wakeIf_trace,
    wakeIf_calls, wakeIf_discPc, wakeIf_readerPc, wakeIf_doneCount, wakeIf_beforeReader,
    disconnectedCount_cons, disconnectedCount_nil] at h ⊢
  exact h

theorem countInv_step (c : Choice) (s : Sys) (h : CountInv s) : CountInv (step c s) := by
  cases c with
  | run => exact countInv_stepRun s h
  | reader r => exact countInv_stepReader r s h
  | disconnect => exact countInv_stepDisconnect s h
  | sendMessage m => exact countInv_stepSendMessage m s h

theorem countInv_exec (sched : List Choice) (s : Sys) (h : CountInv s) :
    CountInv (exec sched s) := by
  induction sched generalizing s with
  | nil => exact h
  | cons c cs ih => exact ih (step c s) (countInv_step c s h)

theorem relInv_start (h c : Nat) (fd : Int) (f : ClientThread)
    (hs : f.ssl = some h) (hc : f.ctx = some c) (hf : f.sockfd = fd) :
    RelInv h c fd (Sys.start f) := by
  simp [RelInv, Sys.start, SendPc.phase, hs, hc, hf, ownerReleases_nil, releases_nil]

theorem relInv_stepRun (h c : Nat) (fd : Int) (hfd : fd ≠ -1) (s : Sys)
    (hi : RelInv h c fd s) : RelInv h c fd (stepRun s) := by
  obtain ⟨f, sp, rp, dp, calls, tr⟩ := s
  have hb := send_loop_body_frame f
  cases sp <;> dsimp only [stepRun] <;> (try split) <;>
    simp [RelInv, SendPc.phase, releases_append, ownerReleases_append, hb] at hi ⊢ <;>
    (try exact hi) <;>
    (try simp_all [releaseSsl, releaseCtx, releases_cons, releases_nil, ownerReleases_cons,
       ownerReleases_nil, Event.isRelease, Event.isClose, ownerReleases_of_releases_nil])
  intro h0
  exact hfd (hi.2 h0).2.1.symm

theorem relInv_stepReader (h c : Nat) (fd : Int) (r : ReadResult) (s : Sys)
    (hi : RelInv h c fd s) : RelInv h c fd (stepReader r s) := by
  obtain ⟨f, sp, rp, dp, calls, tr⟩ := s
  have hb := read_iteration_frame f r
  cases rp <;> dsimp only [stepReader] <;> (try split) <;>
    simp [RelInv, releases_append, ownerReleases_append, hb, ownerReleases_of_releases_nil] at hi ⊢ <;>
    exact hi

theorem relInv_stepSendMessage (h c : Nat) (fd : Int) (m : String) (s : Sys)
    (hi : RelInv h c fd s) : RelInv h c fd (stepSendMessage m s) := by
  obtain ⟨f, sp, rp, dp, calls, tr⟩ := s
  simp [RelInv, stepSendMessage, sendMessage, wakeIf_trace, wakeIf_calls, wakeIf_discPc,
    wakeIf_fields, wakeIf_phase, releases_append, ownerReleases_append, releases_cons,
    releases_nil, ownerReleases_cons, ownerReleases_nil, Event.isRelease] at hi ⊢
  exact hi

theorem relInv_stepDisconnect (h c : Nat) (fd : Int) (hfd : fd ≠ -1) (s : Sys)
    (hi : RelInv h c fd s) : RelInv h c fd (stepDisconnect s) := by
  obtain ⟨f, sp, rp, dp, calls, tr⟩ := s
  have hb := disconnect_locked_frame f
  have hfd2 : ¬ (-1 = fd) := fun e => hfd e.symm
  cases dp <;> dsimp only [stepDisconnect] <;> (try split) <;>
    simp [RelInv, wakeIf_trace, wakeIf_calls, wakeIf_discPc, wakeIf_fields, wakeIf_phase,
      releases_append, ownerReleases_append, releases_cons, releases_nil, ownerReleases_cons,
      ownerReleases_nil, Event.isRelease, Event.isClose, hb, ownerReleases_of_releases_nil]
      at hi ⊢ <;>
    (obtain ⟨a1, a2, a3, a4, a5⟩ := hi) <;>
    (refine ⟨a1, a2, a3, ?_⟩) <;>
    (by_cases h0 : calls = 0) <;>
    (try have h1 : 1 ≤ calls := Nat.pos_of_ne_zero h0) <;>
    simp_all

theorem relInv_step (h c : Nat) (fd : Int) (hfd : fd ≠ -1) (ch : Choice) (s : Sys)
    (hi : RelInv h c fd s) : RelInv h c fd (step ch s) := by
  cases ch with
  | run => exact relInv_stepRun h c fd hfd s hi
  | reader r => exact relInv_stepReader h c fd r s hi
  | disconnect => exact relInv_stepDisconnect h c fd hfd s hi
  | sendMessage m => exact relInv_stepSendMessage h c fd m s hi

theorem relInv_exec (h c : Nat) (fd : Int) (hfd : fd ≠ -1) (sched : List Choice) (s : Sys)
    (hi : RelInv h c fd s) : RelInv h c fd (exec sched s) := by
  induction sched generalizing s with
  | nil => exact hi
  | cons ch cs ih => exact ih (step ch s) (relInv_step h c fd hfd ch s hi)

theorem settled_stepRun (h c : Nat) (fd : Int) (s : Sys)
    (hi : RelInv h c fd s) (hs : Settled h c fd s) : Settled h c fd (stepRun s) := by
  obtain ⟨f, sp, rp, dp, calls, tr⟩ := s
  have hb := send_loop_body_frame f
  cases sp <;> dsimp only [stepRun] <;> (try split) <;>
    simp [RelInv, Settled, SendPc.phase, SendPc.closing, releases_append, hb] at hi hs ⊢ <;>
    (try exact hs) <;>
    (try simp_all [releaseSsl, releaseCtx, releases_cons, releases_nil, Event.isRelease])

theorem settled_stepReader (h c : Nat) (fd : Int) (r : ReadResult) (s : Sys)
    (hs : Settled h c fd s) : Settled h c fd (stepReader r s) := by
  obtain ⟨f, sp, rp, dp, calls, tr⟩ := s
  have hb := read_iteration_frame f r
  cases rp <;> dsimp only [stepReader] <;> (try split) <;>
    simp [Settled, releases_append, hb] at hs ⊢ <;>
    exact hs

theorem settled_stepSendMessage (h c : Nat) (fd : Int) (m : String) (s : Sys)
    (hs : Settled h c fd s) : Settled h c fd (stepSendMessage m s) := by
  obtain ⟨f, sp, rp, dp, calls, tr⟩ := s
  simp [Settled, stepSendMessage, sendMessage, wakeIf_trace, wakeIf_discPc,
    wakeIf_fields, wakeIf_phase, wakeIf_closing, releases_append, releases_cons,
    releases_nil, Event.isRelease] at hs ⊢
  exact hs

theorem settled_stepDisconnect (h c : Nat) (fd : Int) (s : Sys)
    (hs : Settled h c fd s) : Settled h c fd (stepDisconnect s) := by
  obtain ⟨f, sp, rp, dp, calls, tr⟩ := s
  have hb := disconnect_locked_frame f
  cases dp <;> dsimp only [stepDisconnect] <;> (try split) <;>
    simp [Settled, wakeIf_trace, wakeIf_discPc, wakeIf_fields, wakeIf_phase, wakeIf_closing,
      releases_append, releases_cons, releases_nil, Event.isRelease, hb] at hs ⊢ <;>
    simp_all

theorem settled_exec (h c : Nat) (fd : Int) (hfd : fd ≠ -1) (sched : List Choice) (s : Sys)
    (hi : RelInv h c fd s) (hs : Settled h c fd s) : Settled h c fd (exec sched s) := by
  induction sched generalizing s with
  | nil => exact hs
  | cons ch cs ih =>
    refine ih (step ch s) (relInv_step h c fd hfd ch s hi) ?_
    cases ch with
    | run => exact settled_stepRun h c fd s hi hs
    | reader r => exact settled_stepReader h c fd r s hs
    | disconnect => exact settled_stepDisconnect h c fd s hs
    | sendMessage m => exact settled_stepSendMessage h c fd m s hs

theorem disconnect_steps_agree (s : Sys) (hp : s.discPc = DiscPc.idle) :
    ∃ n, n ≤ 5 ∧
      (exec (List.replicate n Choice.disconnect) s).discPc = DiscPc.idle ∧
      (exec (List.replicate n Choice.disconnect) s).fields = (disconnect s.fields).1 ∧
      (exec (List.replicate n Choice.disconnect) s).trace = s.trace ++ (disconnect s.fields).2 := by
  obtain ⟨f, sp, rp, dp, calls, tr⟩ := s
  simp only at hp
  subst hp
  by_cases hfd : f.sockfd = -1
  · refine ⟨3, by omega, ?_⟩
    have hb := disconnect_locked_frame f
    simp [exec, List.replicate, step, stepDisconnect, wakeIf_discPc, wakeIf_fields, wakeIf_trace,
      disconnect, releaseSock, hfd, hb]
  · refine ⟨5, by omega, ?_⟩
    have hb := disconnect_locked_frame f
    simp [exec, List.replicate, step, stepDisconnect, wakeIf_discPc, wakeIf_fields, wakeIf_trace,
      disconnect, releaseSock, hfd, hb]

theorem teardown_steps_agree (s : Sys) (hp : s.sendPc = SendPc.freeSsl) :
    ∃ n, n ≤ 5 ∧
      (exec (List.replicate n Choice.run) s).sendPc = SendPc.emitDisconnected ∧
      (exec (List.replicate n Choice.run) s).fields = (releaseAll s.fields).1 ∧
      (exec (List.replicate n Choice.run) s).trace = s.trace ++ (releaseAll s.fields).2 := by
  obtain ⟨f, sp, rp, dp, calls, tr⟩ := s
  simp only at hp
  subst hp
  have hs : (releaseSsl f).1.sockfd = f.sockfd := by
    unfold releaseSsl; split <;> rfl
  by_cases hfd : f.sockfd = -1
  · refine ⟨3, by omega, ?_⟩
    simp [exec, List.replicate, step, stepRun, releaseAll, releaseSock, hfd, hs]
  · refine ⟨5, by omega, ?_⟩
    simp [exec, List.replicate, step, stepRun, releaseAll, releaseSock, hfd, hs]

theorem run_connect_connected (env : Env) (s0 : ClientThread)
    (h : (run_connect env s0).outcome = Outcome.connected) :
    (run_connect env s0).state.ssl = some env.sslNew ∧
    (run_connect env s0).state.ctx = env.ctxNew ∧
    (run_connect env s0).state.sockfd = env.socketRet ∧
    0 ≤ env.socketRet := by
  unfold run_connect at h ⊢
  cases hc : env.ctxNew with
  | none => simp [hc] at h
  | some c =>
    simp only [hc] at h ⊢
    rcases hcc : configure_context env with ⟨evc, _ | what⟩
    · simp only [hcc] at h ⊢
      by_cases h1 : env.socketRet < 0
      · simp [h1] at h
      · by_cases h2 : env.connectRet < 0
        · simp [h1, h2] at h
        · by_cases h3 : env.sslConnectRet ≤ 0
          · simp [h1, h2, h3] at h
          · simp [h1, h2, h3]
            omega
    · simp [hcc, run_catch] at h

theorem isEmpty_eq_false_of_ne (B : String) (hB : B ≠ "") : QString.isEmpty B = false := by
  cases B with
  | mk data =>
    cases data with
    | nil => exact absurd rfl hB
    | cons c cs => rfl

theorem stuck_step (ch : Choice) (hns : ch.isSendMessage = false) (s : Sys) (h : Stuck s) :
    Stuck (step ch s) := by
  obtain ⟨f, sp, rp, dp, calls, tr⟩ := s
  obtain ⟨h1, h2, h3⟩ := h
  simp only at h1 h2 h3
  subst h1 h3
  cases ch with
  | run => exact ⟨rfl, h2, rfl⟩
  | reader r => exact ⟨rfl, h2, rfl⟩
  | sendMessage m => simp [Choice.isSendMessage] at hns
  | disconnect =>
    cases dp <;> dsimp only [step, stepDisconnect] <;> (try split) <;>
      simp [Stuck, disconnect_locked, h2, wakeIf]

theorem stuck_exec (sched : List Choice) (hno : ∀ ch ∈ sched, ch.isSendMessage = false)
    (s : Sys) (h : Stuck s) : Stuck (exec sched s) := by
  induction sched generalizing s with
  | nil => exact h
  | cons ch cs ih =>
    exact ih (fun x hx => hno x (List.mem_cons_of_mem ch hx)) (step ch s)
      (stuck_step ch (hno ch (List.mem_cons_self ch cs)) s h)

theorem length_eq_utf8_length_of_ascii (l : List Char) (h : ∀ c ∈ l, c.toNat < 128) :
    (l.map QString.utf16Units).sum = ((l.map QString.utf8Encode).flatten).length := by
  induction l with
  | nil => rfl
  | cons c cs ih =>
    have hc : c.toNat < 128 := h c (List.mem_cons_self c cs)
    have hc2 : c.toNat < 65536 := by omega
    have ih2 := ih (fun x hx => h x (List.mem_cons_of_mem c hx))
    simp [QString.utf16Units, QString.utf8Encode, hc, hc2, ih2]
    omega

/-! ## Failed connection attempts -/

/-- Claim C1, evaluated on the code: when `SSL_connect` fails, `run()`
returns with the socket still open and the TLS context still live: nothing
in the trace closes descriptor 3 or frees context 1, and both stay in the
fields. When `socket` fails, the context is not freed either. -/
theorem run_connect_handshake_failure_leaks :
    (run_connect envHandshakeFails ClientThread.new).outcome = Outcome.returned ∧
    (run_connect envHandshakeFails ClientThread.new).state.sockfd = 3 ∧
    (run_connect envHandshakeFails ClientThread.new).state.ctx = some 1 ∧
    releases (run_connect envHandshakeFails ClientThread.new).events = [] ∧
    (run_connect envSocketFails ClientThread.new).outcome = Outcome.returned ∧
    releases (run_connect envSocketFails ClientThread.new).events = [] := by
  decide

/-- Claim C2, evaluated on the code: when the client certificate cannot be
loaded, `run()` emits two `connectionFailed` notifications for the one
failure, the second of kind `UnknownError`. -/
theorem run_connect_cert_failure_unknown_error :
    (run_connect envCertMissing ClientThread.new).outcome = Outcome.returned ∧
    signals (run_connect envCertMissing ClientThread.new).events =
      [Signal.connectionFailed ConnectionErrorType.SSLConnectionFailed
         "Failed to load client certificate",
       Signal.connectionFailed ConnectionErrorType.UnknownError
         "Failed to load client certificate"] ∧
    (run_connect envCertMissing ClientThread.new).events.any Event.isUnknownError = true := by
  decide

/-- Claim C6, evaluated on the code: after a `run()` whose `::connect` failed,
the field `sockfd` still holds the closed descriptor, and a following
`disconnect()` closes descriptor 3 a second time. -/
theorem disconnect_after_failed_connect_closes_twice :
    (run_connect envConnectFails ClientThread.new).outcome = Outcome.returned ∧
    (run_connect envConnectFails ClientThread.new).state.sockfd = 3 ∧
    closes ((run_connect envConnectFails ClientThread.new).events ++
      (disconnect (run_connect envConnectFails ClientThread.new).state).2) =
      [Event.close 3, Event.close 3] := by
  decide

/-! ## `disconnect()` -/

/-- Claim C7: `disconnect()` is idempotent on the fields: a second call
leaves the state of the first unchanged and closes no socket, and a call on a
session whose `sockfd` is -1 closes no socket. -/
theorem disconnect_idempotent (s : ClientThread) :
    (disconnect (disconnect s).1).1 = (disconnect s).1 ∧
    closes (disconnect (disconnect s).1).2 = [] ∧
    (s.sockfd = -1 → closes (disconnect s).2 = []) := by
  cases s with
  | mk ctx ssl sockfd running dr msg =>
    by_cases h : sockfd = -1 <;> cases running <;>
      simp [disconnect, disconnect_locked, releaseSock, closes, Event.isClose, h]

/-- Claim C7 at a concrete input: a freshly constructed `ClientThread`, whose
`sockfd` is -1. -/
theorem disconnect_idempotent_witness :
    ClientThread.new.sockfd = -1 ∧
    (disconnect (disconnect ClientThread.new).1).1 = (disconnect ClientThread.new).1 ∧
    closes (disconnect ClientThread.new).2 = [] :=
  ⟨rfl, (disconnect_idempotent ClientThread.new).1,
    (disconnect_idempotent ClientThread.new).2.2 rfl⟩

/-! ## Send loop -/

/-- The wake of the send loop after two `sendMessage` calls, for every first
message `A` and every non-empty second message `B`: exactly one `SSL_write`,
on the UTF-8 buffer of `B` with the byte count `B.length()`, followed by
`messageSent(B)`; the slot is cleared and nothing is written or reported for
`A`. -/
theorem sendMessage_overwrite (A B : String) (s : Sys)
    (hw : s.sendPc = SendPc.waiting) (hd : s.fields.disconnectRequested = false)
    (hB : B ≠ "") :
    (exec [Choice.sendMessage A, Choice.sendMessage B, Choice.run] s).trace =
        s.trace ++ [Event.wakeAll, Event.wakeAll,
          Event.sslWrite (QString.toUtf8 B) (QString.length B),
          Event.emit (Signal.messageSent B)] ∧
      (exec [Choice.sendMessage A, Choice.sendMessage B, Choice.run] s).fields.messageToSend
        = "" ∧
      (exec [Choice.sendMessage A, Choice.sendMessage B, Choice.run] s).sendPc
        = SendPc.loopHead := by
  have hE := isEmpty_eq_false_of_ne B hB
  simp [exec, step, stepSendMessage, sendMessage, wakeIf, wake, hw, stepRun, send_loop_body,
    hd, hE]

/-- The same wake at a concrete input: "hello" then "world". -/
theorem sendMessage_overwrite_witness :
    (exec [Choice.sendMessage "hello", Choice.sendMessage "world", Choice.run]
          sessionWaiting).trace =
        sessionWaiting.trace ++ [Event.wakeAll, Event.wakeAll,
          Event.sslWrite (QString.toUtf8 "world") (QString.length "world"),
          Event.emit (Signal.messageSent "world")] ∧
      (exec [Choice.sendMessage "hello", Choice.sendMessage "world", Choice.run]
          sessionWaiting).fields.messageToSend = "" ∧
      (exec [Choice.sendMessage "hello", Choice.sendMessage "world", Choice.run]
          sessionWaiting).sendPc = SendPc.loopHead :=
  sendMessage_overwrite "hello" "world" sessionWaiting (by decide) (by decide) (by decide)

/-- For a message of ASCII characters the byte count `length()` is the
length of the UTF-8 buffer: the write of the send loop covers the whole
message. -/
theorem ascii_write_complete (B : String) (h : ∀ c ∈ B.toList, c.toNat < 128) :
    (QString.toUtf8 B).take (QString.length B) = QString.toUtf8 B := by
  have hl := length_eq_utf8_length_of_ascii B.toList h
  unfold QString.length QString.toUtf8
  rw [hl]
  exact List.take_length _

/-- With an empty second message the wake of the send loop writes nothing and
reports nothing, whatever the first message was. -/
theorem sendMessage_empty_sends_nothing (A : String) (s : Sys)
    (hw : s.sendPc = SendPc.waiting) (hd : s.fields.disconnectRequested = false) :
    (exec [Choice.sendMessage A, Choice.sendMessage "", Choice.run] s).trace =
      s.trace ++ [Event.wakeAll, Event.wakeAll] := by
  simp [exec, step, stepSendMessage, sendMessage, wakeIf, wake, hw, stepRun, send_loop_body,
    hd, QString.isEmpty]

/-- Claim C3, evaluated on the code: after `sendMessage("a")` and
`sendMessage("é")` on a session blocked in the wait, with no disconnect
requested, the wake reports `messageSent("é")` but hands the channel one byte,
195, of the two bytes 195, 169 of the message: the second message is not sent
whole. -/
theorem sendMessage_second_non_ascii_truncated :
    sessionWaiting.sendPc = SendPc.waiting ∧
    sessionWaiting.fields.disconnectRequested = false ∧
    QString.toUtf8 "é" = [195, 169] ∧
    writes (exec [Choice.sendMessage "a", Choice.sendMessage "é", Choice.run]
      sessionWaiting).trace = [([195, 169], 1)] ∧
    bytesWritten (exec [Choice.sendMessage "a", Choice.sendMessage "é", Choice.run]
      sessionWaiting).trace = [[195]] ∧
    signals (exec [Choice.sendMessage "a", Choice.sendMessage "é", Choice.run]
      sessionWaiting).trace = [Signal.connectionSuccessful, Signal.messageSent "é"] := by
  decide

/-- Claim C9, evaluated on the code: for the one-character message "é" the
UTF-8 buffer handed to `SSL_write` holds two bytes and the byte count passed
with it is `length()`, which is 1. -/
theorem send_loop_body_non_ascii_count :
    (send_loop_body { connectedFields with messageToSend := "é" }).2.1 =
      [Event.sslWrite [195, 169] 1, Event.emit (Signal.messageSent "é")] ∧
    QString.length "é" = 1 ∧ (QString.toUtf8 "é").length = 2 := by
  decide

/-! ## Receive loop -/

/-- The receive loop on reads that leave room for the terminator: when
`running` is true and the reads are `pos`, each of at least 1 and at most 255
bytes, followed by a read `z` that returns zero or an error,
`read_from_server` emits one `messageReceived` per read of `pos`, in order, then
`serverGoneDown`, then `disconnected`, sets `running` to false and returns; it
performs `pos.length + 1` reads and leaves every later read result unread. -/
theorem read_from_server_spec (s : ClientThread) (pos : List ReadResult) (z : ReadResult)
    (rest : List ReadResult) (hrun : s.running = true)
    (hpos : ∀ r ∈ pos, 0 < r.bytes ∧ r.bytes < (bufferSize : Int)) (hz : z.bytes ≤ 0) :
    signals (read_from_server s (pos ++ z :: rest)).events =
        pos.map (fun r => Signal.messageReceived (cString r)) ++
          [Signal.serverGoneDown, Signal.disconnected] ∧
      (read_from_server s (pos ++ z :: rest)).state = { s with running := false } ∧
      (read_from_server s (pos ++ z :: rest)).status = ReaderStatus.returned ∧
      (read_from_server s (pos ++ z :: rest)).unread = rest ∧
      readCount (read_from_server s (pos ++ z :: rest)).events = pos.length + 1 := by
  induction pos with
  | nil =>
    simp [read_from_server, read_iteration, hrun, hz, signals, readCount]
  | cons r ps ih =>
    have hr := hpos r (List.mem_cons_self r ps)
    have hr1 : ¬ r.bytes ≤ 0 := by omega
    have hr2 : ¬ (bufferSize : Int) ≤ r.bytes := by omega
    have ih2 := ih (fun q hq => hpos q (List.mem_cons_of_mem r hq))
    obtain ⟨h1, h2, h3, h4, h5⟩ := ih2
    simp [read_from_server, read_iteration, hrun, hr1, hr2, signals, readCount] at *
    refine ⟨?_, h2, h3, h4, ?_⟩
    · simp [h1]
    · simp [List.countP_cons, h5]

/-- The receive loop at a concrete input: the peer sends "hi!" twice and
closes; a further read result stays unread. -/
theorem read_from_server_spec_witness :
    signals (read_from_server connectedFields
        ([hiRead, hiRead] ++ closedRead :: [hiRead])).events =
      [Signal.messageReceived [104, 105, 33], Signal.messageReceived [104, 105, 33],
       Signal.serverGoneDown, Signal.disconnected] ∧
    (read_from_server connectedFields
        ([hiRead, hiRead] ++ closedRead :: [hiRead])).unread = [hiRead] :=
  have h := read_from_server_spec connectedFields [hiRead, hiRead] closedRead [hiRead]
    (by decide) (by decide) (by decide)
  ⟨h.1, h.2.2.2.1⟩

/-- Claim C8, evaluated on the code: on one positive read of 256 bytes
followed by a read that returns 0, the loop stores the terminator at index 256,
outside the buffer, in the pass for the first read; from that store on the
behaviour is undefined, so the `messageReceived` for that read, the
`serverGoneDown` and `disconnected` notifications and the return of the function
are not established. -/
theorem read_from_server_full_read_undefined :
    0 < fullRead.bytes ∧ closedRead.bytes ≤ 0 ∧ connectedFields.running = true ∧
    (read_from_server connectedFields [fullRead, closedRead]).events =
      [Event.sslRead 256, Event.bufferStore 256 0] ∧
    (read_from_server connectedFields [fullRead, closedRead]).status =
      ReaderStatus.undefined ∧
    signals (read_from_server connectedFields [fullRead, closedRead]).events = [] := by
  decide

/-- Claim C10, evaluated on the code: a read that returns 256, which the
requested size allows, makes the loop store the terminator at index 256 of
the 256-byte buffer, one past its last element. -/
theorem read_from_server_full_read_store :
    1 ≤ fullRead.bytes ∧ fullRead.bytes ≤ (bufferSize : Int) ∧
    Event.bufferStore 256 0 ∈ (read_from_server connectedFields [fullRead, closedRead]).events ∧
    (read_from_server connectedFields [fullRead, closedRead]).events.any
      Event.storeOutOfBounds = true := by
  decide

/-! ## Disconnecting a connected session -/

/-- Claim C4 as stated fails: in this execution the handshake has succeeded,
`disconnect()` is called once and returns, the pending read then fails and
`run()` finishes, and three `disconnected` notifications are emitted: one by
`disconnect()`, one by the reader, one at the end of `run()`. -/
theorem disconnect_three_notifications :
    (exec (schedDisconnectPre ++ schedDisconnectPost) sessionStart).calls = 1 ∧
    (exec (schedDisconnectPre ++ schedDisconnectPost) sessionStart).discPc = DiscPc.idle ∧
    (exec (schedDisconnectPre ++ schedDisconnectPost) sessionStart).readerPc = ReaderPc.done ∧
    (exec (schedDisconnectPre ++ schedDisconnectPost) sessionStart).sendPc = SendPc.done ∧
    disconnectedCount (exec (schedDisconnectPre ++ schedDisconnectPost) sessionStart).trace
      = 3 := by
  decide

/-- Claim C4, amended: from the moment the handshake has succeeded, under
every schedule of the three threads and of `sendMessage` calls in which
`disconnect()` has been called once and has returned, the number of
`disconnected` notifications emitted is at least one and at most three. -/
theorem disconnected_count_bounds (f : ClientThread) (sched : List Choice)
    (hcalls : (exec sched (Sys.start f)).calls = 1)
    (hret : (exec sched (Sys.start f)).discPc = DiscPc.idle) :
    1 ≤ disconnectedCount (exec sched (Sys.start f)).trace ∧
      disconnectedCount (exec sched (Sys.start f)).trace ≤ 3 := by
  have h := countInv_exec sched (Sys.start f) (countInv_start f)
  obtain ⟨_, h1, h2, h3⟩ := h
  have hr : (exec sched (Sys.start f)).readerPc.doneCount ≤ 1 := by
    unfold ReaderPc.doneCount; split <;> omega
  have hs : (exec sched (Sys.start f)).sendPc.doneCount ≤ 1 := by
    unfold SendPc.doneCount; split <;> omega
  simp [hret, DiscPc.inFlight, hcalls] at h1 h2 h3
  omega

/-- Claim C4, amended, at a concrete input: the schedule in which
`disconnect()` has just returned and the other two threads have not moved
since. -/
theorem disconnected_count_bounds_witness :
    1 ≤ disconnectedCount
        (exec schedDisconnectPre (Sys.start (run_connect envAllOk ClientThread.new).state)).trace ∧
      disconnectedCount
        (exec schedDisconnectPre (Sys.start (run_connect envAllOk ClientThread.new).state)).trace
        ≤ 3 :=
  disconnected_count_bounds (run_connect envAllOk ClientThread.new).state schedDisconnectPre
    (by decide) (by decide)

/-- Claim C5, evaluated on the code: once the peer has closed the channel
while `run()` is blocked in the wait (the reader has cleared `running` and
returned), `run()` stays blocked under every continuation that contains no
`sendMessage` call, whatever the threads do and however often `disconnect()` is
called: the reader woke nobody and `disconnect()` wakes only if `running`. The
teardown is never reached, and neither the SSL object nor the TLS context is
ever released. -/
theorem peer_close_blocks_teardown (env : Env) (s0 : ClientThread) (c : Nat)
    (pre sched : List Choice)
    (hconn : (run_connect env s0).outcome = Outcome.connected)
    (hctx : env.ctxNew = some c)
    (hwait : (exec pre (Sys.start (run_connect env s0).state)).sendPc = SendPc.waiting)
    (hrun : (exec pre (Sys.start (run_connect env s0).state)).fields.running = false)
    (hrd : (exec pre (Sys.start (run_connect env s0).state)).readerPc = ReaderPc.done)
    (hno : ∀ ch ∈ sched, ch.isSendMessage = false) :
    (exec (pre ++ sched) (Sys.start (run_connect env s0).state)).sendPc = SendPc.waiting ∧
    (exec (pre ++ sched) (Sys.start (run_connect env s0).state)).fields.ssl
      = some env.sslNew ∧
    (exec (pre ++ sched) (Sys.start (run_connect env s0).state)).fields.ctx = some c ∧
    ownerReleases (exec (pre ++ sched) (Sys.start (run_connect env s0).state)).trace = [] := by
  obtain ⟨hs, hc, hf, hnn⟩ := run_connect_connected env s0 hconn
  rw [hctx] at hc
  have hfd : env.socketRet ≠ -1 := by omega
  have hstart := relInv_start env.sslNew c env.socketRet (run_connect env s0).state hs hc hf
  have hfin := relInv_exec env.sslNew c env.socketRet hfd (pre ++ sched) _ hstart
  have hst := stuck_exec sched hno _ (show Stuck _ from ⟨hwait, hrun, hrd⟩)
  rw [← exec_append] at hst
  have hph : (exec (pre ++ sched) (Sys.start (run_connect env s0).state)).sendPc.phase = 0 := by
    rw [hst.1]; rfl
  exact ⟨hst.1, (hfin.1 hph).1, (hfin.1 hph).2.1, (hfin.1 hph).2.2⟩

/-- Claim C5 at a concrete input: the peer closes the channel of a connected
session, then `disconnect()` is called and returns and every thread is offered
further steps: `run()` is still in the wait and holds the SSL object and the
context. -/
theorem peer_close_blocks_teardown_witness :
    (exec (schedPeerClosed ++ schedAfterPeerClosed)
      (Sys.start (run_connect envAllOk ClientThread.new).state)).sendPc = SendPc.waiting ∧
    (exec (schedPeerClosed ++ schedAfterPeerClosed)
      (Sys.start (run_connect envAllOk ClientThread.new).state)).fields.ssl = some 2 ∧
    (exec (schedPeerClosed ++ schedAfterPeerClosed)
      (Sys.start (run_connect envAllOk ClientThread.new).state)).fields.ctx = some 1 ∧
    ownerReleases (exec (schedPeerClosed ++ schedAfterPeerClosed)
      (Sys.start (run_connect envAllOk ClientThread.new).state)).trace = [] :=
  peer_close_blocks_teardown envAllOk ClientThread.new 1 schedPeerClosed schedAfterPeerClosed
    (by decide) (by decide) (by decide) (by decide) (by decide) (by decide)

/-- A `disconnect()` call that overlaps the teardown of `run()` closes the
socket a second time: both threads test `sockfd` before either resets it. -/
theorem overlapping_disconnect_closes_twice :
    (exec schedOverlap sessionStart).calls = 1 ∧
    (exec schedOverlap sessionStart).sendPc = SendPc.done ∧
    releases (exec schedOverlap sessionStart).trace =
      [Event.sslFree 2, Event.close 3, Event.close 3, Event.ctxFree 1] := by
  decide

/-- When `disconnect()` is called from outside and returns before `run()`
tears down, the socket is closed first, by `disconnect()`, and `run()` then
releases the channel and the context: the order is socket, channel, context. -/
theorem disconnect_releases_socket_first :
    (exec (schedDisconnectPre ++ schedDisconnectPost) sessionStart).sendPc = SendPc.done ∧
    releases (exec (schedDisconnectPre ++ schedDisconnectPost) sessionStart).trace =
      [Event.close 3, Event.sslFree 2, Event.ctxFree 1] := by
  decide

/-- The releases of the runs in which `run()` does return: for every session
whose handshake succeeded and every schedule after which `run()` has returned,
* `run()` has released the channel and then the TLS context, each exactly
  once;
* if `disconnect()` was never called, the releases are the channel, the
  socket, the context, in that order, each exactly once;
* if a `disconnect()` call had returned (and none was in progress) at a point
  `pre` of the schedule where `run()` had not yet released the channel, the
  releases are the socket, the channel, the context, in that order, each
  exactly once. -/
theorem teardown_release_order (env : Env) (s0 : ClientThread) (c : Nat)
    (pre post : List Choice)
    (hconn : (run_connect env s0).outcome = Outcome.connected)
    (hctx : env.ctxNew = some c)
    (hdone : (exec (pre ++ post) (Sys.start (run_connect env s0).state)).sendPc
      = SendPc.done) :
    ownerReleases (exec (pre ++ post) (Sys.start (run_connect env s0).state)).trace =
        [Event.sslFree env.sslNew, Event.ctxFree c] ∧
    ((exec (pre ++ post) (Sys.start (run_connect env s0).state)).calls = 0 →
      releases (exec (pre ++ post) (Sys.start (run_connect env s0).state)).trace =
        [Event.sslFree env.sslNew, Event.close env.socketRet, Event.ctxFree c]) ∧
    ((exec pre (Sys.start (run_connect env s0).state)).sendPc.phase = 0 →
      (exec pre (Sys.start (run_connect env s0).state)).discPc = DiscPc.idle →
      1 ≤ (exec pre (Sys.start (run_connect env s0).state)).calls →
      releases (exec (pre ++ post) (Sys.start (run_connect env s0).state)).trace =
        [Event.close env.socketRet, Event.sslFree env.sslNew, Event.ctxFree c]) := by
  obtain ⟨hs, hc, hf, hnn⟩ := run_connect_connected env s0 hconn
  rw [hctx] at hc
  have hfd : env.socketRet ≠ -1 := by omega
  have hstart := relInv_start env.sslNew c env.socketRet (run_connect env s0).state hs hc hf
  have hfin := relInv_exec env.sslNew c env.socketRet hfd (pre ++ post) _ hstart
  have hph : (exec (pre ++ post) (Sys.start (run_connect env s0).state)).sendPc.phase = 3 := by
    rw [hdone]; rfl
  refine ⟨hfin.2.2.1 hph, fun h0 => (hfin.2.2.2.1 h0).2.2.2.2 hph, ?_⟩
  intro hp hidle hcall
  have hmid := relInv_exec env.sslNew c env.socketRet hfd pre _ hstart
  have hm := (hmid.2.2.2.2 hp hcall).1 hidle
  have hset : Settled env.sslNew c env.socketRet
      (exec pre (Sys.start (run_connect env s0).state)) := by
    refine ⟨hm.1, Or.inl hidle, ?_, fun _ => hm.2, ?_, ?_⟩
    · intro hcl
      rcases hcl with hcl | hcl <;> rw [hcl] at hp <;> simp [SendPc.phase] at hp
    · intro h12
      omega
    · intro h3
      omega
  have hend := settled_exec env.sslNew c env.socketRet hfd post _ hmid hset
  rw [← exec_append] at hend
  exact hend.2.2.2.2.2 hph

/-- The releases at concrete inputs: a session ended by `disconnect()` from
outside, and a session in which the peer closes the channel and a later
`sendMessage` wakes `run()`. -/
theorem teardown_release_order_witness :
    releases (exec (schedDisconnectPre ++ schedDisconnectPost)
        (Sys.start (run_connect envAllOk ClientThread.new).state)).trace =
      [Event.close 3, Event.sslFree 2, Event.ctxFree 1] ∧
    releases (exec (schedPeerCloses ++ [])
        (Sys.start (run_connect envAllOk ClientThread.new).state)).trace =
      [Event.sslFree 2, Event.close 3, Event.ctxFree 1] :=
  ⟨(teardown_release_order envAllOk ClientThread.new 1 schedDisconnectPre schedDisconnectPost
      (by decide) (by decide) (by decide)).2.2 (by decide) (by decide) (by decide),
   (teardown_release_order envAllOk ClientThread.new 1 schedPeerCloses []
      (by decide) (by decide) (by decide)).2.1 (by decide)⟩

end VpnQt
